import Mathlib

set_option linter.unusedVariables false

/-!
# Shallow embedding of `app.py` (medicure_emergency)

The repository is a single Flask application (`src/app.py`) implementing a
guided first-aid triage assistant:

* a fixed dictionary `questions` of yes/no question nodes,
* a fixed dictionary `diagnoses` of terminal recommendation texts,
* `call_ai_for_symptom_check`, which calls an external classification
  service and maps its textual answer onto an entry question id, falling
  back to `"start"` on any failure or unmatched answer,
* two request handlers, `symptom_check` and `answer`.

The embedding below translates these literally.  Python dictionaries become
`String → Option _` functions; a Python subscript `d[k]` that can raise
`KeyError` becomes an `Except` branch.  The external HTTP call is modelled
by an explicit outcome parameter (`AIOutcome`): either the whole
`try` block raises (`failure`: network error, non-2xx status via
`raise_for_status`, JSON decode error, or missing fields while extracting
`result['candidates'][0]['content']['parts'][0]['text']`), or it yields the
extracted response text (`success`).
-/

namespace Medicure

/-- The distinguished root identifier (`'start'` in `app.py`). -/
def ROOT_ID : String := "start"

/-- A value of the `questions` dictionary in `app.py`: the question text and
the two transition targets keyed by `'yes'` and `'no'`. -/
structure QNode where
  question : String
  yes : String
  no : String
deriving DecidableEq, Repr

/-- The `questions` dictionary of `app.py` (lines 16–57), as a partial map
from identifiers to nodes. -/
def questions : String → Option QNode
  | "start" => some ⟨"Are they conscious and responsive?", "q1_a", "q1_b"⟩
  | "q1_a" => some ⟨"Are they breathing?", "q2_a", "diag_unconscious_not_breathing"⟩
  | "q1_b" => some ⟨"Do they have a pulse?", "diag_unconscious_breathing", "diag_unconscious_no_pulse"⟩
  | "q2_a" => some ⟨"Is there any severe bleeding?", "diag_bleeding", "q3_a"⟩
  | "q3_a" => some ⟨"Are they clutching their chest or experiencing severe chest pain?", "diag_heart_attack", "q4_a"⟩
  | "q4_a" => some ⟨"Are they exhibiting facial drooping, arm weakness, or slurred speech?", "diag_stroke", "q5_a"⟩
  | "q5_a" => some ⟨"Are they experiencing a sudden, uncontrollable shaking of their body?", "diag_seizure", "q6_a"⟩
  | "q6_a" => some ⟨"Do they have a known history of severe allergies or are they having trouble breathing with swelling?", "diag_allergic_reaction", "diag_general_ok"⟩
  | _ => none

/-- The `diagnoses` dictionary of `app.py` (lines 60–70). -/
def diagnoses : String → Option String
  | "diag_unconscious_not_breathing" => some "Possible Cardiac Arrest. Start CPR immediately and call for an AED. You should have already called for emergency services."
  | "diag_unconscious_breathing" => some "Possible Unconscious but Breathing. Place them in the recovery position and monitor their breathing. You should have already called for emergency services."
  | "diag_unconscious_no_pulse" => some "Possible Cardiac Arrest. Start CPR immediately. You should have already called for emergency services."
  | "diag_bleeding" => some "Possible Severe Bleeding. Apply direct pressure to the wound with a clean cloth. Elevate the injured area if possible. You should have already called for emergency services."
  | "diag_heart_attack" => some "Possible Heart Attack. Keep the person calm and seated. Loosen any tight clothing. You should have already called for emergency services."
  | "diag_stroke" => some "Possible Stroke. Remember the FAST acronym (Face, Arm, Speech, Time). Do not give them anything to eat or drink. You should have already called for emergency services."
  | "diag_seizure" => some "Possible Seizure. Protect the person from injury by moving objects away. Do not restrain them. You should have already called for emergency services."
  | "diag_allergic_reaction" => some "Possible Anaphylactic Shock. If they have an epinephrine auto-injector, assist them in using it. You should have already called for emergency services."
  | "diag_general_ok" => some "The person may be fine or have a less critical condition. However, if symptoms persist or worsen, please seek professional medical help immediately."
  | _ => none

/-- The keys of `questions`, in source order. -/
def questionKeys : List String :=
  ["start", "q1_a", "q1_b", "q2_a", "q3_a", "q4_a", "q5_a", "q6_a"]

/-- The keys of `diagnoses`, in source order. -/
def diagKeys : List String :=
  ["diag_unconscious_not_breathing", "diag_unconscious_breathing",
   "diag_unconscious_no_pulse", "diag_bleeding", "diag_heart_attack",
   "diag_stroke", "diag_seizure", "diag_allergic_reaction", "diag_general_ok"]

/-! ## The symptom classifier (`call_ai_for_symptom_check`, lines 72–127) -/

/-- Outcome of the external call inside the `try` block of
`call_ai_for_symptom_check`: either some exception is raised while
performing the request, checking the status, decoding JSON or extracting
the nested fields (`failure`), or the extracted response text is obtained
(`success`). -/
inductive AIOutcome where
  | failure
  | success (text : String)
deriving DecidableEq, Repr

/-- The `diagnosis_categories` dictionary local to
`call_ai_for_symptom_check` (lines 79–87), as an ordered list of
(label, diagnosis id) pairs. -/
def diagnosis_categories : List (String × String) :=
  [("Cardiac Arrest", "diag_unconscious_not_breathing"),
   ("Breathing Emergency", "diag_unconscious_breathing"),
   ("Severe Bleeding", "diag_bleeding"),
   ("Heart Attack", "diag_heart_attack"),
   ("Stroke", "diag_stroke"),
   ("Seizure", "diag_seizure"),
   ("Allergic Reaction", "diag_allergic_reaction")]

/-- The labels (dictionary keys) of `diagnosis_categories`; the Python
membership test `ai_match in diagnosis_categories` ranges over these. -/
def categoryLabels : List String := diagnosis_categories.map Prod.fst

/-- Python whitespace for `str.strip()`: the ASCII whitespace characters
(the inputs in this development are ASCII; the unicode cases of Python
`str.strip` do not arise). -/
def isPyWhitespace (c : Char) : Bool :=
  c = ' ' || c = '\t' || c = '\n' || c = '\r' || c = '\x0b' || c = '\x0c'

/-- Python `str.strip()`: drop whitespace from both ends. -/
def pyStrip (s : String) : String :=
  ⟨((s.data.dropWhile isPyWhitespace).reverse.dropWhile isPyWhitespace).reverse⟩

/-- `call_ai_for_symptom_check(symptoms)` (lines 72–127).  The `symptoms`
argument only influences the prompt sent to the service, not how the
response is mapped; the external call itself is abstracted by `outcome`.
On `failure` the `except` handler returns `"start"`; on `success` the text
is stripped and run through the `in`-test and `if/elif` chain of lines
107–124, falling through to the `return "start"` of line 124. -/
def call_ai_for_symptom_check (symptoms : String) : AIOutcome → String
  | .failure => "start"
  | .success t =>
    let ai_match := pyStrip t
    if ai_match ∈ categoryLabels then
      if ai_match = "Cardiac Arrest" then "q1_a"
      else if ai_match = "Breathing Emergency" then "q1_b"
      else if ai_match = "Severe Bleeding" then "q2_a"
      else if ai_match = "Heart Attack" then "q3_a"
      else if ai_match = "Stroke" then "q4_a"
      else if ai_match = "Seizure" then "q5_a"
      else if ai_match = "Allergic Reaction" then "q6_a"
      else "start"
    else "start"

/-! ## The request handlers -/

/-- A JSON response produced by the handlers: either a question payload
(`status: "question"` with `next_q_id` and `question`) or a diagnosis
payload (`status: "diagnosis"` with the text), or the error payload of
`symptom_check` for missing symptoms. -/
inductive Resp where
  | question (next_q_id : String) (questionText : String)
  | diagnosis (text : String)
  | errorMsg (message : String)
deriving DecidableEq, Repr

/-- An uncaught Python `KeyError` escaping the `answer` handler.  All four
constructors are `KeyError` at runtime; they record which subscript raised:
`unknownNode` for `questions[current_q_id]` (line 173), `invalidAnswer` for
the inner `[answer]` subscript (line 173), `unknownNext` for
`questions[next_q_id]` (line 183) and `unknownLeaf` for
`diagnoses[next_q_id]` (line 179). -/
inductive Err where
  | unknownNode (key : Option String)
  | invalidAnswer (key : Option String)
  | unknownNext (key : String)
  | unknownLeaf (key : String)
deriving DecidableEq, Repr

/-- Subscripting a question-node dictionary value, `node[answer]`: the
value dictionaries of `questions` have exactly the keys `'question'`,
`'yes'` and `'no'`; any other key (including a missing `answer` field,
i.e. `none`) raises `KeyError`. -/
def QNode.subscript (nd : QNode) (k : Option String) : Option String :=
  match k with
  | some "question" => some nd.question
  | some "yes" => some nd.yes
  | some "no" => some nd.no
  | _ => none

/-- Python `str.startswith`: is `pre` a prefix of `s`?  (`String.startsWith`
is not used because its byte-position loops do not reduce in the kernel;
this list-based form is extensionally the same test.) -/
def pyStartsWith (s pre : String) : Bool := pre.data.isPrefixOf s.data

/-- Lines 175–188 of the `answer` handler: branch on whether `next_q_id`
names a diagnosis (by the `startswith('diag_')` test) and build the JSON
response, with `KeyError` possibilities at the two dictionary lookups. -/
def respondFor (next_q_id : String) : Except Err Resp :=
  if pyStartsWith next_q_id "diag_" then
    match diagnoses next_q_id with
    | none => .error (.unknownLeaf next_q_id)
    | some text => .ok (.diagnosis text)
  else
    match questions next_q_id with
    | none => .error (.unknownNext next_q_id)
    | some nd => .ok (.question next_q_id nd.question)

/-- The `/api/answer` handler (lines 158–188).  `current_q_id` and `ans`
are the values of `data.get('current_q_id')` and `data.get('answer')`
(`none` models an absent field).  If the answer equals `'initial'` the
handler short-circuits `next_q_id` to `'start'`; otherwise it evaluates
`questions[current_q_id][answer]`, raising `KeyError` if either subscript
misses. -/
def answerEndpoint (current_q_id : Option String) (ans : Option String) :
    Except Err Resp :=
  if ans = some "initial" then
    respondFor "start"
  else
    match current_q_id.bind questions with
    | none => .error (.unknownNode current_q_id)
    | some nd =>
      match nd.subscript ans with
      | none => .error (.invalidAnswer ans)
      | some next_q_id => respondFor next_q_id

/-- The `/api/symptom_check` handler (lines 135–155).  `symptoms` is
`data.get('symptoms')`; `if not symptoms` rejects a missing or empty value.
Otherwise the classifier result indexes `questions` with the default
`questions['start']` (`questions.get(next_question_id, questions['start'])`,
line 150), and the question payload is built from it. -/
def symptom_check : Option String → AIOutcome → Resp
  | none, _ => .errorMsg "No symptoms provided."
  | some s, outcome =>
    if s = "" then .errorMsg "No symptoms provided."
    else
      let next_question_id := call_ai_for_symptom_check s outcome
      let first_question :=
        (questions next_question_id).getD
          ⟨"Are they conscious and responsive?", "q1_a", "q1_b"⟩
      .question next_question_id first_question.question

/-! ## Startup credential check (lines 9–11) -/

/-- Python truthiness of `os.getenv("GEMINI_API_KEY")`: `not key` is true
exactly when the variable is absent (`None`) or the empty string. -/
def pyFalsy (key : Option String) : Bool :=
  match key with
  | none => true
  | some s => s = ""

/-- Lines 9–11 of `app.py`: read the credential and raise `ValueError` when
it is falsy, otherwise continue startup with the key. -/
def startupCheck (key : Option String) : Except String String :=
  if pyFalsy key then
    .error "GEMINI_API_KEY environment variable not set."
  else .ok ((key).getD "")

/-! ## Transition relation on identifiers (for the structural claims) -/

/-- One yes/no transition step of the decision tree: `b` is the `'yes'` or
`'no'` target of question node `a`. -/
def stepB (a b : String) : Bool :=
  match questions a with
  | none => false
  | some nd => b = nd.yes ∨ b = nd.no

/-- The step relation as a `Prop`. -/
def stepRel (a b : String) : Prop := stepB a b = true

instance : DecidableRel stepRel := fun a b => by
  unfold stepRel; infer_instance

/-- Following a list of answers (each `"yes"`/`"no"`) from a node, as the
`answer` handler would via `questions[n][a]`; `none` if a node is missing
or an answer is neither `"yes"` nor `"no"`. -/
def followPath : String → List String → Option String
  | n, [] => some n
  | n, a :: rest =>
    match questions n with
    | none => none
    | some nd =>
      if a = "yes" then followPath nd.yes rest
      else if a = "no" then followPath nd.no rest
      else none

/-- A rank function on identifiers that strictly increases along every
transition edge; used to show the tree is acyclic. -/
def rank : String → Nat
  | "start" => 0
  | "q1_a" => 1
  | "q1_b" => 1
  | "q2_a" => 2
  | "q3_a" => 3
  | "q4_a" => 4
  | "q5_a" => 5
  | "q6_a" => 6
  | _ => 7

/-! ## Helper lemmas -/

/-- The eight node values of the `questions` dictionary, in source order. -/
def nodeValues : List QNode :=
  [⟨"Are they conscious and responsive?", "q1_a", "q1_b"⟩,
   ⟨"Are they breathing?", "q2_a", "diag_unconscious_not_breathing"⟩,
   ⟨"Do they have a pulse?", "diag_unconscious_breathing", "diag_unconscious_no_pulse"⟩,
   ⟨"Is there any severe bleeding?", "diag_bleeding", "q3_a"⟩,
   ⟨"Are they clutching their chest or experiencing severe chest pain?", "diag_heart_attack", "q4_a"⟩,
   ⟨"Are they exhibiting facial drooping, arm weakness, or slurred speech?", "diag_stroke", "q5_a"⟩,
   ⟨"Are they experiencing a sudden, uncontrollable shaking of their body?", "diag_seizure", "q6_a"⟩,
   ⟨"Do they have a known history of severe allergies or are they having trouble breathing with swelling?", "diag_allergic_reaction", "diag_general_ok"⟩]

/-- Any value the `questions` map can produce is one of the eight listed
node records. -/
theorem questions_mem_nodeValues {k : String} {nd : QNode}
    (h : questions k = some nd) : nd ∈ nodeValues := by
  unfold questions at h
  split at h <;> first
    | (injection h with h; subst h; decide)
    | (cases h)

/-- Every yes/no transition edge strictly increases `rank`. -/
theorem step_rank_lt {a b : String} (h : stepRel a b) : rank a < rank b := by
  unfold stepRel stepB at h
  split at h
  · exact absurd h (by simp)
  · next k nd heq =>
    unfold questions at heq
    split at heq <;> simp_all <;> (try cases h) <;> subst_eqs <;> decide

/-- Chains of transitions strictly increase `rank`. -/
theorem transGen_rank_lt {a b : String} (h : Relation.TransGen stepRel a b) :
    rank a < rank b := by
  induction h with
  | single h => exact step_rank_lt h
  | tail _ h2 ih => exact lt_trans ih (step_rank_lt h2)

/-- The transition graph has no cycles. -/
theorem no_cycle (n : String) : ¬ Relation.TransGen stepRel n n := fun h =>
  lt_irrefl _ (transGen_rank_lt h)

/-- Subscripting a question-node value with anything other than
`'question'`, `'yes'` or `'no'` raises `KeyError`. -/
theorem subscript_eq_none {nd : QNode} {a : Option String}
    (hq : a ≠ some "question") (hy : a ≠ some "yes") (hn : a ≠ some "no") :
    nd.subscript a = none := by
  unfold QNode.subscript
  split <;> simp_all

/-- `q1_a` is reachable from the root. -/
theorem reach_q1_a : Relation.ReflTransGen stepRel "start" "q1_a" :=
  Relation.ReflTransGen.single (by decide)

/-- `q1_b` is reachable from the root. -/
theorem reach_q1_b : Relation.ReflTransGen stepRel "start" "q1_b" :=
  Relation.ReflTransGen.single (by decide)

/-- `q2_a` is reachable from the root. -/
theorem reach_q2_a : Relation.ReflTransGen stepRel "start" "q2_a" :=
  reach_q1_a.tail (by decide)

/-- `q3_a` is reachable from the root. -/
theorem reach_q3_a : Relation.ReflTransGen stepRel "start" "q3_a" :=
  reach_q2_a.tail (by decide)

/-- `q4_a` is reachable from the root. -/
theorem reach_q4_a : Relation.ReflTransGen stepRel "start" "q4_a" :=
  reach_q3_a.tail (by decide)

/-- `q5_a` is reachable from the root. -/
theorem reach_q5_a : Relation.ReflTransGen stepRel "start" "q5_a" :=
  reach_q4_a.tail (by decide)

/-- `q6_a` is reachable from the root. -/
theorem reach_q6_a : Relation.ReflTransGen stepRel "start" "q6_a" :=
  reach_q5_a.tail (by decide)

/-- Every question node and diagnosis leaf is reachable from the root. -/
theorem reach_all : ∀ id ∈ questionKeys ++ diagKeys,
    Relation.ReflTransGen stepRel "start" id := by
  intro id h
  fin_cases h
  · exact Relation.ReflTransGen.refl
  · exact reach_q1_a
  · exact reach_q1_b
  · exact reach_q2_a
  · exact reach_q3_a
  · exact reach_q4_a
  · exact reach_q5_a
  · exact reach_q6_a
  · exact reach_q1_a.tail (by decide)
  · exact reach_q1_b.tail (by decide)
  · exact reach_q1_b.tail (by decide)
  · exact reach_q2_a.tail (by decide)
  · exact reach_q3_a.tail (by decide)
  · exact reach_q4_a.tail (by decide)
  · exact reach_q5_a.tail (by decide)
  · exact reach_q6_a.tail (by decide)
  · exact reach_q6_a.tail (by decide)

/-- Both transition targets of every question node are keys of the
combined questions-or-diagnoses set. -/
theorem questions_closed : ∀ n nd, questions n = some nd →
    nd.yes ∈ questionKeys ++ diagKeys ∧ nd.no ∈ questionKeys ++ diagKeys := by
  intro n nd h
  have := questions_mem_nodeValues h
  fin_cases this <;> exact ⟨by decide, by decide⟩

/-- The classifier only ever returns one of the eight question-node keys. -/
theorem call_mem_questionKeys (s : String) (o : AIOutcome) :
    call_ai_for_symptom_check s o ∈ questionKeys := by
  cases o with
  | failure => show "start" ∈ questionKeys; decide
  | success t =>
    simp only [call_ai_for_symptom_check]
    split_ifs <;> decide

/-! ## Claim theorems -/

/-- Claim C1: for every input symptoms text, if the external classification
call fails for any reason (network error, non-success HTTP status,
malformed response body or missing fields — all of which raise inside the
`try` block and are caught by the blanket `except`), then
`call_ai_for_symptom_check` returns the root identifier `'start'` and no
error is propagated to its caller; the function is total over all failure
modes of the external call. -/
theorem c1_failure_returns_root (symptoms : String) :
    call_ai_for_symptom_check symptoms .failure = ROOT_ID := rfl

/-- Claim C2: for every external-service response text, if after stripping
surrounding whitespace it exactly equals one of the known category labels,
`call_ai_for_symptom_check` returns the question id mapped to that label
(in particular a response of exactly `"Heart Attack"` yields `'q3_a'`);
if the stripped text equals no known label (including `"No Match"`, the
empty string, or any unrecognized text) it returns `'start'`. -/
theorem c2_success_label_mapping :
    (∀ s t, pyStrip t = "Cardiac Arrest" →
      call_ai_for_symptom_check s (.success t) = "q1_a") ∧
    (∀ s t, pyStrip t = "Breathing Emergency" →
      call_ai_for_symptom_check s (.success t) = "q1_b") ∧
    (∀ s t, pyStrip t = "Severe Bleeding" →
      call_ai_for_symptom_check s (.success t) = "q2_a") ∧
    (∀ s t, pyStrip t = "Heart Attack" →
      call_ai_for_symptom_check s (.success t) = "q3_a") ∧
    (∀ s t, pyStrip t = "Stroke" →
      call_ai_for_symptom_check s (.success t) = "q4_a") ∧
    (∀ s t, pyStrip t = "Seizure" →
      call_ai_for_symptom_check s (.success t) = "q5_a") ∧
    (∀ s t, pyStrip t = "Allergic Reaction" →
      call_ai_for_symptom_check s (.success t) = "q6_a") ∧
    (∀ s, call_ai_for_symptom_check s (.success "Heart Attack") = "q3_a") ∧
    (∀ s t, pyStrip t ∉ categoryLabels →
      call_ai_for_symptom_check s (.success t) = ROOT_ID) :=
  ⟨fun s t h => by simp only [call_ai_for_symptom_check, h]; decide,
   fun s t h => by simp only [call_ai_for_symptom_check, h]; decide,
   fun s t h => by simp only [call_ai_for_symptom_check, h]; decide,
   fun s t h => by simp only [call_ai_for_symptom_check, h]; decide,
   fun s t h => by simp only [call_ai_for_symptom_check, h]; decide,
   fun s t h => by simp only [call_ai_for_symptom_check, h]; decide,
   fun s t h => by simp only [call_ai_for_symptom_check, h]; decide,
   fun s => rfl,
   fun s t h => by simp only [call_ai_for_symptom_check]; rw [if_neg h]; rfl⟩

/-- Witness for C2: the whitespace-padded response `" Heart Attack "` maps
to `'q3_a'`, and the unmatched response `"No Match"` maps to `'start'`. -/
theorem c2_witness :
    pyStrip " Heart Attack " = "Heart Attack" ∧
    call_ai_for_symptom_check "chest pain" (.success " Heart Attack ") = "q3_a" ∧
    pyStrip "No Match" ∉ categoryLabels ∧
    call_ai_for_symptom_check "chest pain" (.success "No Match") = ROOT_ID :=
  ⟨by decide,
   c2_success_label_mapping.2.2.2.1 "chest pain" " Heart Attack " (by decide),
   by decide,
   c2_success_label_mapping.2.2.2.2.2.2.2.2 "chest pain" "No Match" (by decide)⟩

/-- Counterexample to claim C3 as stated: the answer `"initial"` is outside
the enum `{yes, no}`, yet with node `'start'` the transition does not fail
with `InvalidAnswerError` — it silently short-circuits to the root
question. -/
theorem c3_counterexample :
    answerEndpoint (some "start") (some "initial") =
      .ok (.question "start" "Are they conscious and responsive?") := rfl

/-- Claim C3 amended: the sentinel answer `"initial"` short-circuits to the
root for every node id; for any other answer, an unknown (or missing) node
id fails with the `KeyError` of `questions[current_q_id]`
(`UnknownNodeError`); a known node id with an answer outside
`{yes, no, question, initial}` fails with the `KeyError` of the inner
`[answer]` subscript (`InvalidAnswerError`); the answer `"question"` on a
known node does fail, but with a `KeyError` on the node's question text at
the `questions[next_q_id]` lookup rather than an invalid-answer failure;
and a known node id with an answer in `{yes, no}` always succeeds. -/
theorem c3_amended_transition_errors :
    (∀ cur, answerEndpoint cur (some "initial") =
      .ok (.question "start" "Are they conscious and responsive?")) ∧
    (∀ cur a, a ≠ some "initial" → cur.bind questions = none →
      answerEndpoint cur a = .error (.unknownNode cur)) ∧
    (∀ cur a nd, cur.bind questions = some nd → a ≠ some "initial" →
      a ≠ some "question" → a ≠ some "yes" → a ≠ some "no" →
      answerEndpoint cur a = .error (.invalidAnswer a)) ∧
    (∀ cur nd, cur.bind questions = some nd →
      answerEndpoint cur (some "question") = .error (.unknownNext nd.question)) ∧
    (∀ cur a nd, cur.bind questions = some nd → (a = some "yes" ∨ a = some "no") →
      ∃ r, answerEndpoint cur a = .ok r) := by
  refine ⟨fun cur => rfl, ?_, ?_, ?_, ?_⟩
  · intro cur a ha h
    unfold answerEndpoint
    rw [if_neg ha]
    simp only [h]
  · intro cur a nd hcur ha hq hy hn
    unfold answerEndpoint
    rw [if_neg ha]
    simp only [hcur, subscript_eq_none hq hy hn]
  · intro cur nd hcur
    cases cur with
    | none => exact absurd hcur (by simp)
    | some c =>
      have hmem := questions_mem_nodeValues (hcur : questions c = some nd)
      unfold answerEndpoint
      rw [if_neg (by decide : ¬ ((some "question" : Option String) = some "initial"))]
      simp only [hcur]
      fin_cases hmem <;> rfl
  · intro cur a nd hcur ha
    cases cur with
    | none => exact absurd hcur (by simp)
    | some c =>
      have hmem := questions_mem_nodeValues (hcur : questions c = some nd)
      rcases ha with h | h <;> subst h <;>
        (unfold answerEndpoint; rw [if_neg (by decide)]; simp only [hcur]) <;>
        fin_cases hmem <;> exact ⟨_, rfl⟩

/-- Witness for the amended C3 at concrete inputs: an unknown node fails
with the node `KeyError`, an out-of-enum answer fails with the answer
`KeyError`, the answer `"question"` fails on the question-text lookup, and
a yes answer on the root succeeds. -/
theorem c3_amended_witness :
    answerEndpoint (some "nope") (some "yes") = .error (.unknownNode (some "nope")) ∧
    answerEndpoint (some "start") (some "maybe") = .error (.invalidAnswer (some "maybe")) ∧
    answerEndpoint (some "start") (some "question") =
      .error (.unknownNext "Are they conscious and responsive?") ∧
    (∃ r, answerEndpoint (some "start") (some "yes") = .ok r) :=
  ⟨c3_amended_transition_errors.2.1 (some "nope") (some "yes") (by decide) rfl,
   c3_amended_transition_errors.2.2.1 (some "start") (some "maybe")
     ⟨"Are they conscious and responsive?", "q1_a", "q1_b"⟩ rfl
     (by decide) (by decide) (by decide) (by decide),
   c3_amended_transition_errors.2.2.2.1 (some "start")
     ⟨"Are they conscious and responsive?", "q1_a", "q1_b"⟩ rfl,
   c3_amended_transition_errors.2.2.2.2 (some "start") (some "yes")
     ⟨"Are they conscious and responsive?", "q1_a", "q1_b"⟩ rfl (Or.inl rfl)⟩

/-- Counterexample to claim C4 as stated: supplying the sentinel
`"initial"` in the current-node position with answer `"yes"` does not
short-circuit to the root — it raises the `KeyError` of
`questions['initial']`, because the handler keys the short-circuit on the
answer field only. -/
theorem c4_counterexample :
    answerEndpoint (some "initial") (some "yes") =
      .error (.unknownNode (some "initial")) := rfl

/-- Claim C4 amended: the short-circuit is triggered by the answer field —
whenever the answer is the sentinel `"initial"`, Advance short-circuits to
`ROOT_ID` and returns the root question `"Are they conscious and
responsive?"` without performing the node lookup, irrespective of the
current-node field; in particular `Advance("initial","initial")` returns
the root question, and that sentinel call is never an error. -/
theorem c4_amended_sentinel_short_circuit :
    (∀ cur, answerEndpoint cur (some "initial") =
      .ok (.question "start" "Are they conscious and responsive?")) ∧
    answerEndpoint (some "initial") (some "initial") =
      .ok (.question "start" "Are they conscious and responsive?") :=
  ⟨fun cur => rfl, rfl⟩

/-- Claim C5: the fixed tree is structurally closed — both transition
targets of every question node are keys of the combined
questions-or-diagnoses set; the yes/no transition graph is acyclic; and
every question node and diagnosis leaf is reachable from the root
`'start'`. -/
theorem c5_tree_closed_acyclic_reachable :
    (∀ n nd, questions n = some nd →
      nd.yes ∈ questionKeys ++ diagKeys ∧ nd.no ∈ questionKeys ++ diagKeys) ∧
    (∀ n, ¬ Relation.TransGen stepRel n n) ∧
    (∀ id ∈ questionKeys ++ diagKeys, Relation.ReflTransGen stepRel "start" id) :=
  ⟨questions_closed, no_cycle, reach_all⟩

/-- Witness for C5 at concrete instances: the root's targets are in the
combined key set, the root is on no cycle, and the final leaf is
reachable. -/
theorem c5_witness :
    ("q1_a" ∈ questionKeys ++ diagKeys ∧ "q1_b" ∈ questionKeys ++ diagKeys) ∧
    ¬ Relation.TransGen stepRel "start" "start" ∧
    Relation.ReflTransGen stepRel "start" "diag_general_ok" :=
  ⟨c5_tree_closed_acyclic_reachable.1 "start"
     ⟨"Are they conscious and responsive?", "q1_a", "q1_b"⟩ rfl,
   c5_tree_closed_acyclic_reachable.2.1 "start",
   c5_tree_closed_acyclic_reachable.2.2 "diag_general_ok" (by decide)⟩

/-- Claim C6: `Advance("start","no")` returns the question of `'q1_b'`,
and `Advance("q1_b","yes")` returns the diagnosis text bound to
`'diag_unconscious_breathing'`; the paths start→no→yes and
start→yes→yes→yes each terminate at a diagnosis leaf within at most 6
transition hops from the root. -/
theorem c6_traversal_paths :
    answerEndpoint (some "start") (some "no") =
      .ok (.question "q1_b" "Do they have a pulse?") ∧
    answerEndpoint (some "q1_b") (some "yes") =
      .ok (.diagnosis "Possible Unconscious but Breathing. Place them in the recovery position and monitor their breathing. You should have already called for emergency services.") ∧
    (followPath "start" ["no", "yes"] = some "diag_unconscious_breathing" ∧
      "diag_unconscious_breathing" ∈ diagKeys ∧
      (["no", "yes"] : List String).length ≤ 6) ∧
    (followPath "start" ["yes", "yes", "yes"] = some "diag_bleeding" ∧
      "diag_bleeding" ∈ diagKeys ∧
      (["yes", "yes", "yes"] : List String).length ≤ 6) :=
  ⟨rfl, rfl, ⟨rfl, by decide, by decide⟩, ⟨rfl, by decide, by decide⟩⟩

/-- Claim C7: each of the nine diagnosis keys carries non-empty
recommendation text and is reachable from the root `'start'` by some
sequence of yes/no transitions. -/
theorem c7_diagnoses_nonempty_reachable :
    ∀ d ∈ diagKeys, (∃ t, diagnoses d = some t ∧ t ≠ "") ∧
      Relation.ReflTransGen stepRel "start" d := by
  intro d h
  fin_cases h <;>
    exact ⟨⟨_, rfl, by decide⟩, reach_all _ (by decide)⟩

/-- Witness for C7 at the heart-attack leaf. -/
theorem c7_witness :
    "diag_heart_attack" ∈ diagKeys ∧
    ((∃ t, diagnoses "diag_heart_attack" = some t ∧ t ≠ "") ∧
      Relation.ReflTransGen stepRel "start" "diag_heart_attack") :=
  ⟨by decide, c7_diagnoses_nonempty_reachable "diag_heart_attack" (by decide)⟩

/-- Claim C8: startup raises the fatal `ValueError` exactly when the
`GEMINI_API_KEY` environment value is absent or empty — there is no
runtime fallback for a missing credential. -/
theorem c8_startup_requires_credential (key : Option String) :
    startupCheck key = .error "GEMINI_API_KEY environment variable not set." ↔
      key = none ∨ key = some "" := by
  cases key with
  | none => simp [startupCheck, pyFalsy]
  | some s =>
    by_cases h : s = ""
    · subst h; simp [startupCheck, pyFalsy]
    · simp [startupCheck, pyFalsy, h]

/-- Claim C9: for every outcome of the external call,
`call_ai_for_symptom_check` returns one of the eight question-node keys —
never a diagnosis id from `diagnosis_categories` — so the `symptom_check`
handler's `questions.get(next_question_id, questions['start'])` never
takes its default branch, and the returned `next_q_id` and question text
refer to the same node. -/
theorem c9_classifier_range :
    (∀ s o, call_ai_for_symptom_check s o ∈ questionKeys) ∧
    (∀ id ∈ questionKeys, (questions id).isSome = true) ∧
    (∀ s o, call_ai_for_symptom_check s o ∉ diagnosis_categories.map Prod.snd) ∧
    (∀ s o, s ≠ "" → ∃ nd, questions (call_ai_for_symptom_check s o) = some nd ∧
      symptom_check (some s) o =
        .question (call_ai_for_symptom_check s o) nd.question) := by
  refine ⟨call_mem_questionKeys, ?_, ?_, ?_⟩
  · intro id h; fin_cases h <;> rfl
  · intro s o
    have hx := call_mem_questionKeys s o
    simp only [questionKeys, List.mem_cons, List.not_mem_nil, or_false] at hx
    rcases hx with h|h|h|h|h|h|h|h <;> rw [h] <;> decide
  · intro s o hs
    have hx := call_mem_questionKeys s o
    simp only [questionKeys, List.mem_cons, List.not_mem_nil, or_false] at hx
    simp only [symptom_check, if_neg hs]
    rcases hx with h|h|h|h|h|h|h|h <;> rw [h] <;> exact ⟨_, rfl, rfl⟩

/-- Witness for C9 at a concrete request whose mocked response is
`"Stroke"`. -/
theorem c9_witness :
    call_ai_for_symptom_check "chest pain" (.success "Stroke") ∈ questionKeys ∧
    (questions "q4_a").isSome = true ∧
    call_ai_for_symptom_check "chest pain" (.success "Stroke") ∉
      diagnosis_categories.map Prod.snd ∧
    (∃ nd, questions (call_ai_for_symptom_check "chest pain" (.success "Stroke")) = some nd ∧
      symptom_check (some "chest pain") (.success "Stroke") =
        .question (call_ai_for_symptom_check "chest pain" (.success "Stroke")) nd.question) :=
  ⟨c9_classifier_range.1 "chest pain" (.success "Stroke"),
   c9_classifier_range.2.1 "q4_a" (by decide),
   c9_classifier_range.2.2.1 "chest pain" (.success "Stroke"),
   c9_classifier_range.2.2.2 "chest pain" (.success "Stroke") (by decide)⟩

/-- Claim C10: the `"initial"` short-circuit of the `answer` handler is
keyed solely on the answer field — for every current-node value (missing,
unknown, or a diagnosis-leaf id), an answer of `"initial"` yields the root
question without consulting the current node; conversely a current node of
`"initial"` with any other answer does not trigger the short-circuit and
instead fails the node lookup. -/
theorem c10_short_circuit_keyed_on_answer :
    (∀ cur, answerEndpoint cur (some "initial") =
      .ok (.question "start" "Are they conscious and responsive?")) ∧
    (∀ a, a ≠ some "initial" →
      answerEndpoint (some "initial") a = .error (.unknownNode (some "initial"))) := by
  refine ⟨fun cur => rfl, ?_⟩
  intro a ha
  unfold answerEndpoint
  rw [if_neg ha]
  rfl

/-- Witness for C10: a missing current node with sentinel answer returns
the root question, and current node `"initial"` with answer `"no"`
errors. -/
theorem c10_witness :
    answerEndpoint none (some "initial") =
      .ok (.question "start" "Are they conscious and responsive?") ∧
    answerEndpoint (some "initial") (some "no") =
      .error (.unknownNode (some "initial")) :=
  ⟨c10_short_circuit_keyed_on_answer.1 none,
   c10_short_circuit_keyed_on_answer.2 (some "no") (by decide)⟩

end Medicure
